import Mathlib

/-!
# Verification of the line-jmty-bot monitoring bot

Shallow embedding of the repository's two Python source files:

* `src/main.py`   — the LINE webhook process: command handler
  (`handle_message`), settings store (`load_user_settings`,
  `save_user_settings`), admin alerting (`notify_admin`).
* `src/worker.py` — the monitoring worker: settings store
  (`load_settings`, `save_settings`), scraper (`scrape_latest_title`),
  per-user monitoring loop (`monitor_user`) and the scheduler (`main`).

Modelling conventions:

* Python dicts become association lists with first-match lookup and
  in-place update (`getVal`, `setVal`), mirroring dict key semantics.
* JSON scalar values stored in a tenant record become `JVal`; a record is
  an association list `TenantRec` so that unknown extra fields are
  representable.
* The Python `json` library's dump/load pair is modelled as the identity
  on the document value: the persisted file is a `FileDoc` that either
  holds a settings mapping (`valid`), is absent, is empty, or is
  unparseable (`corrupt`).  `json.dump` of a mapping produces a `valid`
  document; `json.load` of a `valid` document returns its mapping and
  raises `JSONDecodeError` on `emptyFile`/`corrupt`.
* External effects (HTTP fetch via aiohttp, HTML parsing via
  BeautifulSoup, LINE push messages) are modelled by their observable
  outcomes: a fetch either raises (`FetchResult.err`) or yields an HTTP
  status code — which the worker never reads — and a parsed page
  (`Page`, the list of `a[href*="/article-"]` elements in order); a
  LINE push either returns or raises (`NotifyResult`).
-/

/-- A JSON scalar stored in a tenant record (`src/main.py` and
`src/worker.py` persist strings, ints and booleans; `jnull` covers an
explicit JSON null). -/
inductive JVal
  | jstr (s : String)
  | jnum (n : Int)
  | jbool (b : Bool)
  | jnull
deriving DecidableEq

/-- One tenant record: a Python dict from field name to value.  Arbitrary
extra keys are representable, as in the JSON file. -/
abbrev TenantRec := List (String × JVal)

/-- The full settings mapping, keyed by LINE user id
(`user_settings` in `src/main.py`, `settings` in `src/worker.py`). -/
abbrev SettingsMap := List (String × TenantRec)

/-- Python `d[k]` read / `d.get(k)`: first binding of `k`, if any. -/
def getVal {α : Type} : List (String × α) → String → Option α
  | [], _ => none
  | (k, v) :: rest, key => if k = key then some v else getVal rest key

/-- Python `d[k] = v`: update the binding of `k` in place, or append a new
binding when `k` is absent. -/
def setVal {α : Type} : List (String × α) → String → α → List (String × α)
  | [], key, v => [(key, v)]
  | (k, w) :: rest, key, v =>
    if k = key then (key, v) :: rest else (k, w) :: setVal rest key v

/-- Python truthiness of a value read with `.get` (`None` for an absent
key): `None`, `""`, `0` and `False` are falsy. -/
def truthy : Option JVal → Bool
  | none => false
  | some (.jstr s) => !(s = "")
  | some (.jnum n) => !(n = 0)
  | some (.jbool b) => b
  | some .jnull => false

/-- Python `str(v)` as used in the `確認` reply's f-string. -/
def showJVal : JVal → String
  | .jstr s => s
  | .jnum n => toString n
  | .jbool b => if b then "True" else "False"
  | .jnull => "None"

/-- Python `conf.get(k, "")` rendered into an f-string. -/
def showOptJVal : Option JVal → String
  | none => ""
  | some v => showJVal v

/-- Python whitespace, the set stripped and split by `str.strip()` /
`str.split()` (exactly the characters whose `str.isspace()` is true):
U+0009..U+000D, U+001C..U+001F, the space, U+0085 (next line), U+00A0
(no-break space), U+1680 (Ogham space mark), U+2000..U+200A (en/em/...
spaces), U+2028/U+2029 (line/paragraph separator), U+202F (narrow
no-break space), U+205F (medium mathematical space) and U+3000 (the
ideographic full-width space). -/
def pyIsSpace (c : Char) : Bool :=
  (9 ≤ c.toNat && c.toNat ≤ 13) || (28 ≤ c.toNat && c.toNat ≤ 32) ||
  c.toNat = 0x85 || c.toNat = 0xa0 || c.toNat = 0x1680 ||
  (0x2000 ≤ c.toNat && c.toNat ≤ 0x200a) || c.toNat = 0x2028 ||
  c.toNat = 0x2029 || c.toNat = 0x202f || c.toNat = 0x205f || c.toNat = 0x3000

/-- Python `str.strip()` on the character list: drop leading and trailing
whitespace. -/
def pyStripList (l : List Char) : List Char :=
  ((l.dropWhile pyIsSpace).reverse.dropWhile pyIsSpace).reverse

/-- Python `str.strip()`. -/
def pyStrip (s : String) : String := ⟨pyStripList s.data⟩

/-- Embeds `msg.replace('　', ' ')` from `src/main.py` line 98: full-width
space to half-width space, character by character. -/
def zenkakuToSpace (l : List Char) : List Char :=
  l.map fun c => if c = '　' then ' ' else c

/-- Helper for Python `str.split()`: accumulate the current word
(reversed) and emit it at each whitespace run or at the end. -/
def splitWsAux : List Char → List Char → List (List Char)
  | [], acc => if acc = [] then [] else [acc.reverse]
  | c :: cs, acc =>
    if pyIsSpace c then
      if acc = [] then splitWsAux cs [] else acc.reverse :: splitWsAux cs []
    else splitWsAux cs (c :: acc)

/-- Python `str.split()` with no argument: split on whitespace runs,
dropping empty pieces. -/
def splitWs (l : List Char) : List (List Char) := splitWsAux l []

/-- Decimal digit characters (Unicode category Nd, which `int()`
parses) within this model's character repertoire (`pyDigitModelled`):
the ASCII digits and the full-width digits U+FF10..U+FF19. -/
def pyIsDecimalChar (c : Char) : Bool :=
  (0x30 ≤ c.toNat && c.toNat ≤ 0x39) || (0xff10 ≤ c.toNat && c.toNat ≤ 0xff19)

/-- Characters whose Python `str.isdigit()` is true although `int()`
cannot parse them (Numeric_Type=Digit but not decimal) within this
model's repertoire: the superscripts ¹²³ and U+2070/U+2074..U+2079 and
the subscripts U+2080..U+2089. -/
def pyIsDigitOnlyChar (c : Char) : Bool :=
  c.toNat = 0xb2 || c.toNat = 0xb3 || c.toNat = 0xb9 || c.toNat = 0x2070 ||
  (0x2074 ≤ c.toNat && c.toNat ≤ 0x2079) || (0x2080 ≤ c.toNat && c.toNat ≤ 0x2089)

/-- Python `str.isdigit()` of one character. -/
def pyIsDigitChar (c : Char) : Bool := pyIsDecimalChar c || pyIsDigitOnlyChar c

/-- Python `str.isdigit()`: nonempty and every character a digit
character.  Note `"0"` and the full-width `"０"` satisfy it, and so do
`int()`-unparseable strings such as `"²"`. -/
def pyIsDigit (l : List Char) : Bool := !l.isEmpty && l.all pyIsDigitChar

/-- Whether `int(s)` succeeds on a string: every character a decimal
digit.  On an `isdigit()`-true string that fails this, `int()` raises
`ValueError`. -/
def pyIntParses (l : List Char) : Bool := !l.isEmpty && l.all pyIsDecimalChar

/-- The numeric value of a decimal digit character. -/
def digitVal (c : Char) : Nat :=
  if 0xff10 ≤ c.toNat then c.toNat - 0xff10 else c.toNat - 0x30

/-- Python `int(s)` on a parseable digit string (ASCII or full-width). -/
def pyToNat (l : List Char) : Nat :=
  l.foldl (fun a c => a * 10 + digitVal c) 0

/-- The character repertoire on which this model's digit classification
agrees with Python exactly (checked against CPython): the blocks below
U+0660, the general punctuation/superscripts/symbols range
U+2000..U+245F, the CJK range U+2E80..U+A61F (kana, ideographs — no
digit characters at all), and U+FE00..U+FFEF (full-width forms).  Digit
characters of other scripts (Arabic-Indic, Devanagari, circled digits,
...) fall outside the repertoire and outside this bot's Japanese
command vocabulary; theorems about digit handling hypothesize the
repertoire. -/
def pyDigitModelled (c : Char) : Bool :=
  c.toNat < 0x660 || (0x2000 ≤ c.toNat && c.toNat < 0x2460) ||
  (0x2e80 ≤ c.toNat && c.toNat < 0xa620) || (0xfe00 ≤ c.toNat && c.toNat ≤ 0xffef)

/-- The persisted `data/user_urls.json` document as either process sees
it: absent, present but empty, present but not parseable JSON, or a valid
settings mapping. -/
inductive FileDoc
  | absent
  | emptyFile
  | corrupt
  | valid (m : SettingsMap)
deriving DecidableEq

namespace Worker

/-- Embeds `load_settings` from `src/worker.py` lines 31-40.  Missing file: log a
warning, return `{}`.  `json.JSONDecodeError` (empty or corrupt file):
log an error, return `{}`.  The second component records whether an admin
LINE alert was pushed during the load: `worker.py` never pushes one (it
only logs). -/
def load_settings : FileDoc → SettingsMap × Bool
  | .absent => ([], false)
  | .emptyFile => ([], false)
  | .corrupt => ([], false)
  | .valid m => (m, false)

/-- Embeds `save_settings` from `src/worker.py` lines 44-46: `json.dump` of the
whole mapping overwrites the document. -/
def save_settings (settings : SettingsMap) : FileDoc := .valid settings

end Worker

namespace Main

/-- Embeds `load_user_settings` from `src/main.py` lines 39-59.  Missing file:
warn, `{}`.  Empty content (`content.strip() == ""`): `{}` plus a
`notify_admin` alert.  `json.JSONDecodeError`: `{}` plus a `notify_admin`
alert.  Otherwise the parsed mapping.  The second component records
whether `notify_admin` was called. -/
def load_user_settings : FileDoc → SettingsMap × Bool
  | .absent => ([], false)
  | .emptyFile => ([], true)
  | .corrupt => ([], true)
  | .valid m => (m, false)

/-- Embeds `save_user_settings` from `src/main.py` lines 61-68: `json.dump` of
the whole `user_settings` mapping overwrites the document. -/
def save_user_settings (settings : SettingsMap) : FileDoc := .valid settings

end Main

namespace Worker

/-- One `a[href*="/article-"]` element of the fetched page, as
`scrape_latest_title` inspects it: its first `img` child's `alt`
attribute (if any) and its `href` attribute (if present). -/
structure Item where
  alt : Option String
  href : Option String
deriving DecidableEq

/-- The fetched page after BeautifulSoup parsing: the matching anchor
elements in document order. -/
structure Page where
  listings : List Item
deriving DecidableEq

/-- Outcome of `session.get(url, timeout=10)` plus reading the body: any
raised error (timeout, DNS, connection failure) is `err`; otherwise the
HTTP status code and the parsed body.  A non-2xx response raises
nothing in `worker.py` — there is no `raise_for_status` and the status
is never read — so it arrives as an `ok` response whose body is
processed like any page. -/
inductive FetchResult
  | ok (status : Nat) (p : Page)
  | err
deriving DecidableEq

/-- Outcome of `line_bot_api.push_message` as awaited through the thread
pool in `notify_line`: returns, or raises. -/
inductive NotifyResult
  | ok
  | err
deriving DecidableEq

/-- Embeds `scrape_latest_title` from `src/worker.py` lines 50-88,
returning the `(title, link)` pair.  Any raised error gives
`(None, None)`; no matching listings gives `(None, None)`; a first
listing without an `href` makes `link.startswith` raise
`AttributeError` on `None`, caught by the same handler, giving
`(None, None)`.  The title comes from the first listing's image `alt`
(stripped), or the placeholder when there is no image/`alt`. -/
def scrape_latest_title : FetchResult → Option String × Option String
  | .err => (none, none)
  | .ok _ p =>
    match p.listings with
    | [] => (none, none)
    | item :: _ =>
      let title := match item.alt with
        | some a => pyStrip a
        | none => "(タイトル不明)"
      match item.href with
      | none => (none, none)
      | some l =>
        let link := if "http".data.isPrefixOf l.data then l else "https://jmty.jp" ++ l
        (some title, some link)

/-- Python `title != last_title` with `title : str` and `last_title` the
value of `config.get("last_title")` (possibly `None`): values of a
different type are unequal. -/
def titleNeqLast (t : String) : Option JVal → Bool
  | some (.jstr s) => !(t = s)
  | _ => true

/-- Embeds `config.get("interval", 1)` from `src/worker.py` line 111.  The
only writer of this field (`src/main.py`) stores non-negative ints, so a
stored non-integer is not produced by this system; it is modelled by the
default. -/
def getInterval (r : TenantRec) : Int :=
  match getVal r "interval" with
  | some (.jnum n) => n
  | _ => 1

/-- How one iteration of `monitor_user`'s loop left the task: still
looping, returned cleanly after observing deactivation, or killed by an
escaped exception. -/
inductive TaskStatus
  | running
  | exited
  | crashed
deriving DecidableEq

/-- What one iteration of the `monitor_user` `while True:` body did:
whether the task keeps looping, exited via `return`, or died from an
escaped exception; the `save_settings` write it performed, if any; the
LINE messages it delivered; and the seconds passed to `asyncio.sleep`,
when reached. -/
structure CycleOut where
  status : TaskStatus
  write : Option SettingsMap
  notified : List String
  sleepSecs : Option Int
deriving DecidableEq

/-- The environment one cycle runs in: the document `load_settings`
reads at the top of the cycle (other writers may have changed it between
cycles), the fetch outcome, and the LINE push outcome (used only if a
push is attempted). -/
structure CycleEnv where
  doc : FileDoc
  fetch : FetchResult
  notify : NotifyResult
deriving DecidableEq

/-- The notification text built at `src/worker.py` line 119; a missing
link renders as Python prints `None`. -/
def pushMessage (t : String) (lk : Option String) : String :=
  "🆕新着投稿：" ++ t ++ "\n👉 " ++ (match lk with | some l => l | none => "None")

/-- Embeds one iteration of `monitor_user`'s loop body, `src/worker.py`
lines 101-129.  Re-reads the store, exits on a missing, empty or
inactive record (`if not config or not config.get("active")`), scrapes,
and on `if title and title != last_title:` notifies then persists.  An
exception from the LINE push escapes the loop (there is no handler), so
the task crashes before `save_settings` runs. -/
def monitorCycle (uid : String) (env : CycleEnv) : CycleOut :=
  let settings := (load_settings env.doc).1
  match getVal settings uid with
  | none => ⟨.exited, none, [], none⟩
  | some config =>
    if config = [] ∨ truthy (getVal config "active") = false then
      ⟨.exited, none, [], none⟩
    else
      match scrape_latest_title env.fetch with
      | (some t, lk) =>
        if t ≠ "" ∧ titleNeqLast t (getVal config "last_title") = true then
          match env.notify with
          | .err => ⟨.crashed, none, [], none⟩
          | .ok =>
            ⟨.running,
             some (setVal settings uid (setVal config "last_title" (.jstr t))),
             [pushMessage t lk],
             some (getInterval config * 60)⟩
        else ⟨.running, none, [], some (getInterval config * 60)⟩
      | (none, _) => ⟨.running, none, [], some (getInterval config * 60)⟩

/-- Embeds the whole `monitor_user` loop run against a sequence of
per-cycle environments: cycle `n` consumes environment `n` (each cycle
re-reads the store from its own environment).  The run ends when the
environments run out, when the task `return`s, or when an exception
escapes. -/
def runMonitor (uid : String) : List CycleEnv → List CycleOut
  | [] => []
  | env :: rest =>
    if (monitorCycle uid env).status = .running then
      monitorCycle uid env :: runMonitor uid rest
    else [monitorCycle uid env]

end Worker

namespace Worker

/-- One per-user monitoring task as `main` (`src/worker.py` lines
133-153) bookkeeps it: the `asyncio.create_task` handle (numbered in
creation order), the user it monitors, and whether it is still running
(alive tasks are either mid-cycle or sleeping until their next cycle). -/
structure Task where
  tid : Nat
  user : String
  alive : Bool
deriving DecidableEq

/-- The scheduler's state: the current store document contents, the
spawned tasks (`tasks`), the dedup set `started_users`, and the next
task number. -/
structure SchedState where
  store : SettingsMap
  tasks : List Task
  started : List String
  fresh : Nat
deriving DecidableEq

/-- An observable scheduler event: one reconciliation pass of `main`'s
`while True:` loop over `settings.items()`; a sleeping task reaching the
top of its `monitor_user` loop (its `asyncio.sleep` ended); or the
command handler flipping a tenant's `active` flag in the store (`開始` /
`終了` in `src/main.py`). -/
inductive Event
  | reconcile
  | wake (tid : Nat)
  | setActive (uid : String) (b : Bool)

/-- The per-user body of `main`'s reconciliation loop, `src/worker.py`
lines 141-151: spawn a task for an active user not in `started_users`;
drop an inactive user from `started_users` so a later reactivation can
spawn a fresh task.  Nothing here stops or checks the user's still-alive
task. -/
def reconcileUser (acc : List Task × List String × Nat) (entry : String × TenantRec)
    : List Task × List String × Nat :=
  let uid := entry.1
  let config := entry.2
  let act := truthy (getVal config "active")
  let acc1 :=
    if act && !(acc.2.1.contains uid) then
      (acc.1 ++ [⟨acc.2.2, uid, true⟩], acc.2.1 ++ [uid], acc.2.2 + 1)
    else acc
  if !act && acc1.2.1.contains uid then
    (acc1.1, acc1.2.1.erase uid, acc1.2.2)
  else acc1

/-- Embeds the `active` re-check a waking task performs at the top of
`monitor_user`'s loop (`src/worker.py` lines 102-108): the task exits
when its record is missing, empty, or inactive. -/
def taskShouldExit (store : SettingsMap) (uid : String) : Bool :=
  match getVal store uid with
  | none => true
  | some config => config.isEmpty || !truthy (getVal config "active")

/-- One scheduler-level transition. -/
def schedStep (s : SchedState) : Event → SchedState
  | .reconcile =>
    let r := s.store.foldl reconcileUser (s.tasks, s.started, s.fresh)
    ⟨s.store, r.1, r.2.1, r.2.2⟩
  | .wake tid =>
    let tasks := s.tasks.map fun t =>
      if t.tid = tid && t.alive && taskShouldExit s.store t.user then
        ⟨t.tid, t.user, false⟩
      else t
    ⟨s.store, tasks, s.started, s.fresh⟩
  | .setActive uid b =>
    match getVal s.store uid with
    | none => s
    | some r =>
      ⟨setVal s.store uid (setVal r "active" (.jbool b)), s.tasks, s.started, s.fresh⟩

/-- Run the scheduler model over a sequence of events. -/
def runSched (s : SchedState) (events : List Event) : SchedState :=
  events.foldl schedStep s

/-- How many polling tasks are currently running for a user. -/
def runningCount (s : SchedState) (uid : String) : Nat :=
  (s.tasks.filter fun t => t.alive && t.user = uid).length

end Worker

namespace Main

/-- The default record created on first contact, `src/main.py` line 102. -/
def defaultRec : TenantRec :=
  [("url", .jstr ""), ("interval", .jnum 5), ("last_title", .jstr ""), ("active", .jbool false)]

/-- Embeds `src/main.py` lines 101-102: insert the default record for a
previously-unseen user id. -/
def ensure (st : SettingsMap) (uid : String) : SettingsMap :=
  if (getVal st uid).isNone then setVal st uid defaultRec else st

/-- The help text joined at `src/main.py` lines 105-113. -/
def helpText : String :=
  "コマンド一覧:\nセット [URL] - 監視対象のURLを設定\n時間 [分] - 監視間隔を設定\n開始 - 監視を開始\n終了 - 監視を停止\n確認 - 現在の設定確認\nヘルプ - このコマンド一覧を表示"

/-- The rejection text of `src/main.py` line 163. -/
def invalidReply : String :=
  "無効なコマンドです。\x27ヘルプ\x27 で使い方を確認してください。"

/-- What one webhook text-message delivery did: the settings map as the
handler left it, the single reply it sent, and whether
`save_user_settings` ran — or an uncaught exception that aborts the
handler before any reply: the `IndexError` from `tokens[0]` on an empty
token list, or the `ValueError` from `int(tokens[1])` on an
`isdigit()`-true but unparseable interval argument. -/
inductive HandleResult
  | reply (st : SettingsMap) (text : String) (saved : Bool)
  | indexError (st : SettingsMap)
  | valueError (st : SettingsMap)
deriving DecidableEq

/-- The `開始`/`終了`/`確認`/else chain of `src/main.py` lines 145-163,
reached when the first token matched neither `セット` nor a valid `時間`
command.  The record for `uid` is present (inserted at lines 101-102), so
the `getD` default is never taken. -/
def tailCommands (st : SettingsMap) (uid : String) (msg : List Char) : HandleResult :=
  let conf := (getVal st uid).getD defaultRec
  if msg = "開始".data then
    .reply (setVal st uid (setVal conf "active" (.jbool true))) "監視を開始しました。" true
  else if msg = "終了".data then
    .reply (setVal st uid (setVal conf "active" (.jbool false))) "監視を停止しました。" true
  else if msg = "確認".data then
    .reply st
      ("URL: " ++ showOptJVal (getVal conf "url") ++ "\n間隔: "
        ++ showOptJVal (getVal conf "interval") ++ "分\n監視状態: "
        ++ (if truthy (getVal conf "active") then "ON" else "OFF"))
      false
  else .reply st invalidReply false

/-- Embeds `handle_message` from `src/main.py` lines 93-165.  The message
text is stripped, full-width spaces become half-width, and the result is
split into tokens.  A previously-unseen user gets the default record.
`ヘルプ` and `間隔選択` reply and return before any token access; every
other path reads `tokens[0]`, which raises `IndexError` when the token
list is empty.  `セット` stores the second token as the url; `時間`,
when `tokens[1].isdigit()` (note `"0"` and full-width digits pass),
computes `int(tokens[1])` — which raises an uncaught `ValueError` on a
digit-class argument `int()` cannot parse, such as `²` — and stores the
parsed value; the rest is `tailCommands`. -/
def handle_message (st : SettingsMap) (uid : String) (text : String) : HandleResult :=
  let msg := zenkakuToSpace (pyStripList text.data)
  let tokens := splitWs msg
  let st1 := ensure st uid
  if msg = "ヘルプ".data then .reply st1 helpText false
  else if msg = "間隔選択".data then .reply st1 "監視間隔を選択してください。" false
  else
    match tokens with
    | [] => .indexError st1
    | t0 :: rest =>
      match rest with
      | t1 :: _ =>
        if t0 = "セット".data then
          let conf := (getVal st1 uid).getD defaultRec
          .reply (setVal st1 uid (setVal conf "url" (.jstr ⟨t1⟩)))
            ("URLを設定しました：" ++ String.mk t1) true
        else if t0 = "時間".data ∧ pyIsDigit t1 = true then
          if pyIntParses t1 = true then
            let interval := pyToNat t1
            let conf := (getVal st1 uid).getD defaultRec
            .reply (setVal st1 uid (setVal conf "interval" (.jnum interval)))
              ("監視間隔を" ++ toString interval ++ "分に設定しました。") true
          else .valueError st1
        else tailCommands st1 uid msg
      | [] => tailCommands st1 uid msg

end Main

/-- A JSON document value, the value layer of Python `json.dump` /
`json.load` for the settings document. -/
inductive Json
  | jstr (s : String)
  | jnum (n : Int)
  | jbool (b : Bool)
  | jnull
  | jobj (fields : List (String × Json))
  | jarr (elems : List Json)

/-- Serialization of one stored scalar, as `json.dump` writes it. -/
def jvalToJson : JVal → Json
  | .jstr s => .jstr s
  | .jnum n => .jnum n
  | .jbool b => .jbool b
  | .jnull => .jnull

/-- Serialization of one tenant record: a JSON object with one member per
dict entry, every field included (known or not). -/
def recToJson (r : TenantRec) : List (String × Json) :=
  r.map fun kv => (kv.1, jvalToJson kv.2)

/-- Serialization of the whole settings mapping, as
`json.dump(settings, f)` writes it: a JSON object of objects. -/
def settingsToJson (m : SettingsMap) : Json :=
  .jobj (m.map fun kv => (kv.1, .jobj (recToJson kv.2)))

/-- Deserialization of a scalar member back into a stored value. -/
def jvalOfJson : Json → Option JVal
  | .jstr s => some (.jstr s)
  | .jnum n => some (.jnum n)
  | .jbool b => some (.jbool b)
  | .jnull => some .jnull
  | _ => none

/-- Deserialization of a tenant record's members. -/
def recOfJson : List (String × Json) → Option TenantRec
  | [] => some []
  | (k, j) :: rest =>
    match jvalOfJson j, recOfJson rest with
    | some v, some r => some ((k, v) :: r)
    | _, _ => none

/-- Deserialization of the settings object's members. -/
def settingsMembersOfJson : List (String × Json) → Option SettingsMap
  | [] => some []
  | (k, .jobj fields) :: rest =>
    match recOfJson fields, settingsMembersOfJson rest with
    | some r, some m => some ((k, r) :: m)
    | _, _ => none
  | _ :: _ => none

/-- Deserialization of a settings document, as `json.load` hands it back
to the callers that index it as a dict of dicts: any other document shape
is not a settings mapping. -/
def settingsOfJson : Json → Option SettingsMap
  | .jobj fields => settingsMembersOfJson fields
  | _ => none

namespace Demo

/-- A demonstration tenant record carrying an unknown extra field
(`note`), as forward-compatible documents may. -/
def rec1 : TenantRec :=
  [("url", .jstr "https://jmty.jp/tokyo/sale"), ("interval", .jnum 30),
   ("last_title", .jstr ""), ("active", .jbool true), ("note", .jstr "extra")]

/-- A settings store holding `rec1` under tenant `U1`. -/
def store1 : SettingsMap := [("U1", rec1)]

/-- Initial scheduler state: `U1` active with a 30-minute interval, no
tasks spawned yet. -/
def sched1 : Worker.SchedState := ⟨store1, [], [], 0⟩

/-- Event trace: a reconciliation tick spawns `U1`'s task (tid 0); `U1`
sends `終了` then `開始` while that task sleeps out its 30-minute
interval; the next ticks run (spawning tid 1); finally both tasks wake,
re-read `active=true` and keep going. -/
def dupTrace : List Worker.Event :=
  [.reconcile, .setActive "U1" false, .reconcile, .setActive "U1" true,
   .reconcile, .wake 0, .wake 1, .reconcile]

/-- Event trace: `U1` deactivates and a reconciliation tick passes while
its task is still asleep (its 30-minute `asyncio.sleep` outlives the
60-second tick). -/
def stopTrace : List Worker.Event := [.reconcile, .setActive "U1" false, .reconcile]

/-- A fetched page whose first listing is titled `Item A`. -/
def pageA : Worker.Page := ⟨[⟨some "Item A", some "/article-1"⟩]⟩

/-- A fetched page whose first listing has a whitespace-only `alt`
attribute: extraction succeeds and yields the empty title. -/
def pageBlankAlt : Worker.Page := ⟨[⟨some "  ", some "/article-1"⟩]⟩

/-- The parsed body of a non-2xx response that still contains an
article-link anchor (a site error page embedding recent listings). -/
def pageNotFoundBody : Worker.Page := ⟨[⟨some "再出品のお知らせ", some "/article-777"⟩]⟩

/-- The tenant record behind `docOld`: active, 1-minute interval,
`last_title` = `"old"`. -/
def cfgOld : TenantRec :=
  [("url", .jstr "http://site/a"), ("interval", .jnum 1),
   ("last_title", .jstr "old"), ("active", .jbool true)]

/-- A valid settings document holding `cfgOld` for `U1`. -/
def docOld : FileDoc := .valid [("U1", cfgOld)]

/-- The same record with `last_title` = `"x"`. -/
def cfgX : TenantRec :=
  [("url", .jstr "http://site/a"), ("interval", .jnum 1),
   ("last_title", .jstr "x"), ("active", .jbool true)]

/-- A valid settings document holding `cfgX` for `U1`. -/
def docX : FileDoc := .valid [("U1", cfgX)]

/-- A cycle environment: fresh page with `Item A`, LINE delivery
succeeds. -/
def envOk : Worker.CycleEnv := ⟨docOld, .ok 200 pageA, .ok⟩

/-- A cycle environment: fresh page with `Item A`, LINE delivery
raises. -/
def envFail : Worker.CycleEnv := ⟨docOld, .ok 200 pageA, .err⟩

/-- What `monitorCycle "U1" envOk` does: deliver one notification, then
persist `last_title = "Item A"`, then sleep 60 seconds. -/
def outOk : Worker.CycleOut :=
  ⟨.running,
   some [("U1", [("url", .jstr "http://site/a"), ("interval", .jnum 1),
                 ("last_title", .jstr "Item A"), ("active", .jbool true)])],
   ["🆕新着投稿：Item A\n👉 https://jmty.jp/article-1"], some 60⟩

end Demo

/-! ## Helper lemmas: association-list maps -/

theorem getVal_setVal_self {α : Type} (m : List (String × α)) (k : String) (v : α) :
    getVal (setVal m k v) k = some v := by
  induction m with
  | nil => simp [setVal, getVal]
  | cons kv rest ih =>
    obtain ⟨a, w⟩ := kv
    by_cases h : a = k <;> simp [setVal, getVal, h, ih]

theorem getVal_setVal_ne {α : Type} (m : List (String × α)) (k u : String) (v : α)
    (h : u ≠ k) : getVal (setVal m k v) u = getVal m u := by
  have hku : ¬(k = u) := fun e => h e.symm
  induction m with
  | nil => simp [setVal, getVal, hku]
  | cons kv rest ih =>
    obtain ⟨a, w⟩ := kv
    by_cases ha : a = k
    · subst ha
      simp [setVal, getVal, hku]
    · by_cases hu : a = u <;> simp [setVal, getVal, ha, hu, ih, h]

/-! ## Helper lemmas: Python string primitives -/

theorem dropWhile_of_head (l : List Char)
    (h : ∀ c, l.head? = some c → pyIsSpace c = false) :
    l.dropWhile pyIsSpace = l := by
  cases l with
  | nil => rfl
  | cons a t => rw [List.dropWhile_cons, if_neg (by simp [h a rfl])]

theorem pyStripList_of_ends (l : List Char)
    (h1 : ∀ c, l.head? = some c → pyIsSpace c = false)
    (h2 : ∀ c, l.getLast? = some c → pyIsSpace c = false) :
    pyStripList l = l := by
  unfold pyStripList
  rw [dropWhile_of_head l h1,
    dropWhile_of_head l.reverse (fun c hc => h2 c (by rwa [List.head?_reverse] at hc)),
    List.reverse_reverse]

theorem pyStripList_all_space (l : List Char) (h : ∀ c ∈ l, pyIsSpace c = true) :
    pyStripList l = [] := by
  have h1 : l.dropWhile pyIsSpace = [] := List.dropWhile_eq_nil_iff.2 (by simpa using h)
  unfold pyStripList
  rw [h1]
  rfl

theorem mem_dropWhile_of_nospace (l : List Char) (c : Char) (hc : c ∈ l)
    (hns : pyIsSpace c = false) : c ∈ l.dropWhile pyIsSpace := by
  induction l with
  | nil => cases hc
  | cons a t ih =>
    rw [List.dropWhile_cons]
    by_cases ha : pyIsSpace a = true
    · rw [if_pos ha]
      rcases List.mem_cons.1 hc with rfl | ht
      · rw [hns] at ha; cases ha
      · exact ih ht
    · rw [if_neg ha]; exact hc

theorem mem_pyStripList (l : List Char) (c : Char) (hc : c ∈ l)
    (hns : pyIsSpace c = false) : c ∈ pyStripList l := by
  unfold pyStripList
  exact List.mem_reverse.2 (mem_dropWhile_of_nospace _ c
    (List.mem_reverse.2 (mem_dropWhile_of_nospace l c hc hns)) hns)

theorem zenkakuToSpace_of_no_zen (l : List Char) (h : ∀ c ∈ l, ¬(c = '　')) :
    zenkakuToSpace l = l := by
  unfold zenkakuToSpace
  rw [List.map_congr_left (fun a ha => if_neg (h a ha))]
  exact List.map_id' l

theorem mem_zenkakuToSpace (l : List Char) (c : Char) (hc : c ∈ l) (h : ¬(c = '　')) :
    c ∈ zenkakuToSpace l :=
  List.mem_map.2 ⟨c, hc, if_neg h⟩

theorem splitWsAux_nil_eq (acc : List Char) :
    splitWsAux [] acc = if acc = [] then [] else [acc.reverse] := rfl

theorem splitWsAux_cons_eq (c : Char) (cs acc : List Char) :
    splitWsAux (c :: cs) acc =
      if pyIsSpace c then
        if acc = [] then splitWsAux cs [] else acc.reverse :: splitWsAux cs []
      else splitWsAux cs (c :: acc) := rfl

theorem splitWsAux_ne_nil_of_acc (l : List Char) :
    ∀ acc : List Char, acc ≠ [] → splitWsAux l acc ≠ [] := by
  induction l with
  | nil => intro acc h; rw [splitWsAux_nil_eq, if_neg h]; simp
  | cons a t ih =>
    intro acc h
    rw [splitWsAux_cons_eq]
    by_cases hs : pyIsSpace a = true
    · rw [if_pos hs, if_neg h]; simp
    · rw [if_neg hs]
      exact ih (a :: acc) (by simp)

theorem splitWsAux_ne_nil (l : List Char) :
    ∀ (acc : List Char) (c : Char), c ∈ l → pyIsSpace c = false →
      splitWsAux l acc ≠ [] := by
  induction l with
  | nil => intro acc c hc; cases hc
  | cons a t ih =>
    intro acc c hc hns
    rw [splitWsAux_cons_eq]
    by_cases hs : pyIsSpace a = true
    · have ht : c ∈ t := by
        rcases List.mem_cons.1 hc with rfl | h
        · rw [hns] at hs; cases hs
        · exact h
      rw [if_pos hs]
      by_cases hacc : acc = []
      · rw [if_pos hacc]
        exact ih [] c ht hns
      · rw [if_neg hacc]; simp
    · rw [if_neg hs]
      exact splitWsAux_ne_nil_of_acc t (a :: acc) (by simp)

theorem splitWsAux_all_nospace (l : List Char) :
    ∀ acc : List Char, (∀ c ∈ l, pyIsSpace c = false) → l ≠ [] →
      splitWsAux l acc = [acc.reverse ++ l] := by
  induction l with
  | nil => intro acc _ hne; cases hne rfl
  | cons a t ih =>
    intro acc h _
    have ha : pyIsSpace a = false := h a (by simp)
    rw [splitWsAux_cons_eq, if_neg (by simp [ha])]
    cases t with
    | nil => rw [splitWsAux_nil_eq, if_neg (by simp)]; simp
    | cons b u =>
      rw [ih (a :: acc) (fun c hc => h c (List.mem_cons_of_mem a hc)) (by simp)]
      simp

/-! ## Helper lemmas: the monitoring cycle -/

theorem monitorCycle_exited (uid : String) (env : Worker.CycleEnv)
    (h : Worker.taskShouldExit (Worker.load_settings env.doc).1 uid = true) :
    Worker.monitorCycle uid env = ⟨.exited, none, [], none⟩ := by
  unfold Worker.monitorCycle
  rcases hg : getVal (Worker.load_settings env.doc).1 uid with _ | config
  · simp only [hg]
  · rw [Worker.taskShouldExit, hg] at h
    simp only [hg]
    rw [if_pos]
    rcases Bool.or_eq_true_iff.1 h with h1 | h1
    · exact Or.inl (List.isEmpty_iff.1 h1)
    · exact Or.inr (by simpa using h1)

theorem monitorCycle_no_title (uid : String) (env : Worker.CycleEnv) (config : TenantRec)
    (hc : getVal (Worker.load_settings env.doc).1 uid = some config)
    (hne : ¬(config = [])) (hact : truthy (getVal config "active") = true)
    (hs : (Worker.scrape_latest_title env.fetch).1 = none) :
    Worker.monitorCycle uid env =
      ⟨.running, none, [], some (Worker.getInterval config * 60)⟩ := by
  unfold Worker.monitorCycle
  simp only [hc]
  rw [if_neg (by simp [hne, hact])]
  rcases he : Worker.scrape_latest_title env.fetch with ⟨t?, lk⟩
  rw [he] at hs
  cases t? with
  | none => rfl
  | some t => cases hs

theorem monitorCycle_unchanged (uid : String) (env : Worker.CycleEnv) (config : TenantRec)
    (t : String) (lk : Option String)
    (hc : getVal (Worker.load_settings env.doc).1 uid = some config)
    (hne : ¬(config = [])) (hact : truthy (getVal config "active") = true)
    (hs : Worker.scrape_latest_title env.fetch = (some t, lk))
    (hg : ¬(t ≠ "" ∧ Worker.titleNeqLast t (getVal config "last_title") = true)) :
    Worker.monitorCycle uid env =
      ⟨.running, none, [], some (Worker.getInterval config * 60)⟩ := by
  unfold Worker.monitorCycle
  simp only [hc]
  rw [if_neg (by simp [hne, hact]), hs]
  simp only []
  rw [if_neg hg]

theorem monitorCycle_notify_ok (uid : String) (env : Worker.CycleEnv) (config : TenantRec)
    (t : String) (lk : Option String)
    (hc : getVal (Worker.load_settings env.doc).1 uid = some config)
    (hne : ¬(config = [])) (hact : truthy (getVal config "active") = true)
    (hs : Worker.scrape_latest_title env.fetch = (some t, lk))
    (hg : t ≠ "" ∧ Worker.titleNeqLast t (getVal config "last_title") = true)
    (hn : env.notify = .ok) :
    Worker.monitorCycle uid env =
      ⟨.running,
       some (setVal (Worker.load_settings env.doc).1 uid
         (setVal config "last_title" (.jstr t))),
       [Worker.pushMessage t lk], some (Worker.getInterval config * 60)⟩ := by
  unfold Worker.monitorCycle
  simp only [hc]
  rw [if_neg (by simp [hne, hact]), hs]
  simp only []
  rw [if_pos hg, hn]

theorem monitorCycle_notify_err (uid : String) (env : Worker.CycleEnv) (config : TenantRec)
    (t : String) (lk : Option String)
    (hc : getVal (Worker.load_settings env.doc).1 uid = some config)
    (hne : ¬(config = [])) (hact : truthy (getVal config "active") = true)
    (hs : Worker.scrape_latest_title env.fetch = (some t, lk))
    (hg : t ≠ "" ∧ Worker.titleNeqLast t (getVal config "last_title") = true)
    (hn : env.notify = .err) :
    Worker.monitorCycle uid env = ⟨.crashed, none, [], none⟩ := by
  unfold Worker.monitorCycle
  simp only [hc]
  rw [if_neg (by simp [hne, hact]), hs]
  simp only []
  rw [if_pos hg, hn]

theorem runMonitor_get (uid : String) (envs : List Worker.CycleEnv) :
    ∀ (n : Nat) (out : Worker.CycleOut),
      (Worker.runMonitor uid envs).get? n = some out →
      ∃ env, envs.get? n = some env ∧ out = Worker.monitorCycle uid env := by
  induction envs with
  | nil =>
    intro n out h
    rw [Worker.runMonitor, List.get?_nil] at h
    cases h
  | cons env rest ih =>
    intro n out h
    rw [Worker.runMonitor] at h
    by_cases hs : (Worker.monitorCycle uid env).status = .running
    · rw [if_pos hs] at h
      cases n with
      | zero =>
        rw [List.get?_cons_zero] at h
        exact ⟨env, rfl, (Option.some.injEq _ _ ▸ h).symm⟩
      | succ m =>
        rw [List.get?_cons_succ] at h
        obtain ⟨e, he, hout⟩ := ih m out h
        exact ⟨e, by rw [List.get?_cons_succ]; exact he, hout⟩
    · rw [if_neg hs] at h
      cases n with
      | zero =>
        rw [List.get?_cons_zero] at h
        exact ⟨env, rfl, (Option.some.injEq _ _ ▸ h).symm⟩
      | succ m =>
        rw [List.get?_cons_succ, List.get?_nil] at h
        cases h

theorem tailCommands_is_reply (st : SettingsMap) (uid : String) (msg : List Char) :
    ∃ a b c, Main.tailCommands st uid msg = .reply a b c := by
  unfold Main.tailCommands
  by_cases h1 : msg = "開始".data
  · rw [if_pos h1]; exact ⟨_, _, _, rfl⟩
  · rw [if_neg h1]
    by_cases h2 : msg = "終了".data
    · rw [if_pos h2]; exact ⟨_, _, _, rfl⟩
    · rw [if_neg h2]
      by_cases h3 : msg = "確認".data
      · rw [if_pos h3]; exact ⟨_, _, _, rfl⟩
      · rw [if_neg h3]; exact ⟨_, _, _, rfl⟩

/-! ## Helper lemmas: JSON round trip -/

theorem jvalOfJson_jvalToJson (v : JVal) : jvalOfJson (jvalToJson v) = some v := by
  cases v <;> rfl

theorem recOfJson_recToJson (r : TenantRec) : recOfJson (recToJson r) = some r := by
  induction r with
  | nil => rfl
  | cons kv rest ih =>
    obtain ⟨k, v⟩ := kv
    show recOfJson ((k, jvalToJson v) :: recToJson rest) = _
    rw [recOfJson, jvalOfJson_jvalToJson, ih]

theorem settingsMembersOfJson_map (m : SettingsMap) :
    settingsMembersOfJson (m.map fun kv => (kv.1, .jobj (recToJson kv.2))) = some m := by
  induction m with
  | nil => rfl
  | cons kv rest ih =>
    obtain ⟨k, r⟩ := kv
    show settingsMembersOfJson ((k, .jobj (recToJson r)) :: _) = _
    rw [settingsMembersOfJson, recOfJson_recToJson, ih]

/-! ## Helper lemmas: tokenizing an interval command -/

theorem jikan_msg (v : List Char) (hne : v ≠ []) (hns : ∀ c ∈ v, pyIsSpace c = false) :
    zenkakuToSpace (pyStripList ('時' :: '間' :: ' ' :: v)) = '時' :: '間' :: ' ' :: v := by
  have hstrip : pyStripList ('時' :: '間' :: ' ' :: v) = '時' :: '間' :: ' ' :: v := by
    apply pyStripList_of_ends
    · intro c hc
      injection hc with hc
      subst hc; decide
    · intro c hc
      have hlast : ('時' :: '間' :: ' ' :: v).getLast? = v.getLast? := by
        have : ('時' :: '間' :: ' ' :: v) = ['時', '間', ' '] ++ v := rfl
        rw [this, List.getLast?_append_of_ne_nil _ hne]
      rw [hlast] at hc
      exact hns c (List.mem_of_mem_getLast? hc)
  rw [hstrip]
  apply zenkakuToSpace_of_no_zen
  intro c hc e
  subst e
  simp only [List.mem_cons] at hc
  rcases hc with h | h | h | h
  · exact absurd h (by decide)
  · exact absurd h (by decide)
  · exact absurd h (by decide)
  · exact absurd (hns _ h) (by decide)

theorem jikan_split (v : List Char) (hne : v ≠ []) (hns : ∀ c ∈ v, pyIsSpace c = false) :
    splitWs ('時' :: '間' :: ' ' :: v) = [['時', '間'], v] := by
  rw [splitWs, splitWsAux_cons_eq, if_neg (by decide), splitWsAux_cons_eq,
    if_neg (by decide), splitWsAux_cons_eq, if_pos (by decide), if_neg (by decide),
    splitWsAux_all_nospace v [] hns hne]
  rfl

theorem pyIsDigit_of_parses (l : List Char) (h : pyIntParses l = true) :
    pyIsDigit l = true := by
  unfold pyIntParses at h
  unfold pyIsDigit
  rw [Bool.and_eq_true] at h ⊢
  obtain ⟨h1, h2⟩ := h
  refine ⟨h1, ?_⟩
  rw [List.all_eq_true] at h2 ⊢
  intro c hc
  have hd := h2 c hc
  simp only [pyIsDigitChar]
  simp [hd]

/-! ## Claim theorems -/

/-- C1: the scheduler's task-count invariant fails.  In `Demo.dupTrace`
the tenant deactivates and reactivates while its first task sleeps out
its 30-minute interval: reconciliation drops `U1` from `started_users`
on seeing `active=false` although the task is still alive, and the next
tick spawns a second task.  Both tasks then re-read `active=true` when
they wake, so the duplicate is permanent: after the trace (which ends
with a reconciliation tick and both wake-ups) two polling tasks run for
`U1` while it is active, not exactly one.  In `Demo.stopTrace` the
tenant is inactive, a reconciliation tick has passed, yet one task is
still running (its sleep outlives the tick), not zero. -/
theorem c1_scheduler_task_count :
    Worker.runningCount (Worker.runSched Demo.sched1 Demo.dupTrace) "U1" = 2 ∧
    Worker.taskShouldExit (Worker.runSched Demo.sched1 Demo.dupTrace).store "U1" = false ∧
    Worker.runningCount (Worker.runSched Demo.sched1 Demo.stopTrace) "U1" = 1 ∧
    Worker.taskShouldExit (Worker.runSched Demo.sched1 Demo.stopTrace).store "U1" = true := by
  decide

/-- C2 counterexample: with a change detected (`Item A` ≠ `old`) and a
failing LINE push, the run of `monitor_user` over two cycle environments
stops after the first cycle: the push exception escapes the loop and
kills the task, so there is no next cycle and the change is not retried
— refuting "the same change is retried on the next cycle".  (The first
cycle's outcome also shows no write: `last_title` was not persisted.) -/
theorem c2_no_retry_counterexample :
    Worker.runMonitor "U1" [Demo.envFail, Demo.envOk] = [⟨.crashed, none, [], none⟩] ∧
    (Worker.runMonitor "U1" [Demo.envFail, Demo.envOk]).length = 1 := by
  decide

/-- C3 counterexample: extraction succeeds on `Demo.pageBlankAlt` (the
first listing's `alt` strips to the empty title) and the empty title
differs from the stored `last_title = "x"`, yet the cycle sends no
notification and writes nothing — because `if title and ...` treats the
empty string as falsy.  This refutes "Changed exactly when extraction
succeeded and T != L". -/
theorem c3_empty_title_counterexample :
    Worker.scrape_latest_title (.ok 200 Demo.pageBlankAlt) =
      (some "", some "https://jmty.jp/article-1") ∧
    Worker.titleNeqLast "" (getVal Demo.cfgX "last_title") = true ∧
    Worker.monitorCycle "U1" ⟨Demo.docX, .ok 200 Demo.pageBlankAlt, .ok⟩ =
      ⟨.running, none, [], some 60⟩ := by
  decide

/-- C4 counterexample: the inbound command `時間 0` passes the
`tokens[1].isdigit()` check, so the handler stores `interval = 0` and
replies with the acceptance message — a non-positive interval is
accepted into the configuration, refuting "a non-positive ... interval
value is rejected ... and is never stored" and "the stored interval
satisfies interval >= 1". -/
theorem c4_zero_interval_counterexample :
    Main.handle_message [] "U1" "時間 0" =
      .reply [("U1", [("url", .jstr ""), ("interval", .jnum 0),
                      ("last_title", .jstr ""), ("active", .jbool false)])]
        "監視間隔を0分に設定しました。" true := by
  decide

/-- C5 counterexample: the worker-side loader `load_settings` returns the
empty mapping on a corrupt or empty document but raises no admin
notification (it only writes a log line) — refuting "in every such case,
not only some". -/
theorem c5_worker_no_alert_counterexample :
    Worker.load_settings FileDoc.corrupt = ([], false) ∧
    Worker.load_settings FileDoc.emptyFile = ([], false) := by
  decide

/-- C5 (amended): both loaders fail soft — an absent document loads as
the empty mapping with no alert, and an empty or corrupt document loads
as the empty mapping without crashing; the webhook-side loader
(`load_user_settings`) additionally pushes an admin alert on the empty
and corrupt cases, while the worker-side loader (`load_settings`) only
logs and alerts in none of them. -/
theorem c5_load_fails_soft :
    Main.load_user_settings FileDoc.absent = ([], false) ∧
    Main.load_user_settings FileDoc.emptyFile = ([], true) ∧
    Main.load_user_settings FileDoc.corrupt = ([], true) ∧
    (∀ m : SettingsMap, Main.load_user_settings (FileDoc.valid m) = (m, false)) ∧
    Worker.load_settings FileDoc.absent = ([], false) ∧
    Worker.load_settings FileDoc.emptyFile = ([], false) ∧
    Worker.load_settings FileDoc.corrupt = ([], false) ∧
    (∀ m : SettingsMap, Worker.load_settings (FileDoc.valid m) = (m, false)) :=
  ⟨rfl, rfl, rfl, fun _ => rfl, rfl, rfl, rfl, fun _ => rfl⟩

/-- C8: store round trip.  Both `save` functions serialize the whole
in-memory mapping (`json.dump` of the full dict), so loading after
saving — in either process — returns a mapping equal to the one saved,
with every record's fields intact.  The first conjunct proves the
dict-to-JSON value layer is lossless: serializing a mapping into a JSON
object of objects and deserializing it yields the same mapping, for
arbitrary records including ones with unknown extra fields (the type
quantified over places no restriction on field names or record shapes,
so mappings like `Demo.store1`, whose record carries a `note` field no
code knows, are covered). -/
theorem c8_store_roundtrip (m : SettingsMap) :
    settingsOfJson (settingsToJson m) = some m ∧
    (Worker.load_settings (Worker.save_settings m)).1 = m ∧
    (Main.load_user_settings (Main.save_user_settings m)).1 = m ∧
    (Worker.load_settings (Main.save_user_settings m)).1 = m ∧
    (Main.load_user_settings (Worker.save_settings m)).1 = m :=
  ⟨settingsMembersOfJson_map m, rfl, rfl, rfl, rfl⟩

/-- C2 (amended): in a cycle that detects a change (the scrape yields a
non-empty title differing from the stored `last_title`), the
notification attempt comes first and gates the write: if the LINE push
raises, `monitor_user` performs no `save_settings` call at all — the
document keeps the pre-change `last_title`, so a later `load()` still
shows it — but the exception escapes the loop and kills the task, so
the change is only retried after the task is restarted, not
automatically on the next cycle; if the push returns, the cycle delivers
exactly one message and then persists `last_title = title`.  In every
cycle, a write happens only when the push succeeded. -/
theorem c2_notify_gates_persist (uid : String) (env : Worker.CycleEnv)
    (config : TenantRec) (t : String) (lk : Option String)
    (hc : getVal (Worker.load_settings env.doc).1 uid = some config)
    (hne : ¬(config = [])) (hact : truthy (getVal config "active") = true)
    (hs : Worker.scrape_latest_title env.fetch = (some t, lk))
    (ht : t ≠ "") (hch : Worker.titleNeqLast t (getVal config "last_title") = true) :
    (env.notify = .err → Worker.monitorCycle uid env = ⟨.crashed, none, [], none⟩) ∧
    (env.notify = .ok → Worker.monitorCycle uid env =
      ⟨.running,
       some (setVal (Worker.load_settings env.doc).1 uid
         (setVal config "last_title" (.jstr t))),
       [Worker.pushMessage t lk], some (Worker.getInterval config * 60)⟩) ∧
    (∀ m, (Worker.monitorCycle uid env).write = some m →
      env.notify = Worker.NotifyResult.ok) := by
  refine ⟨fun hn => monitorCycle_notify_err uid env config t lk hc hne hact hs ⟨ht, hch⟩ hn,
    fun hn => monitorCycle_notify_ok uid env config t lk hc hne hact hs ⟨ht, hch⟩ hn, ?_⟩
  intro m hm
  cases hn : env.notify with
  | ok => rfl
  | err =>
    rw [monitorCycle_notify_err uid env config t lk hc hne hact hs ⟨ht, hch⟩ hn] at hm
    cases hm

/-- C2 witness: the amended theorem applied to the concrete failing-push
environment `Demo.envFail`. -/
theorem c2_witness :
    (Demo.envFail.notify = .err → Worker.monitorCycle "U1" Demo.envFail =
      ⟨.crashed, none, [], none⟩) ∧
    (Demo.envFail.notify = .ok → Worker.monitorCycle "U1" Demo.envFail =
      ⟨.running,
       some (setVal (Worker.load_settings Demo.envFail.doc).1 "U1"
         (setVal Demo.cfgOld "last_title" (.jstr "Item A"))),
       [Worker.pushMessage "Item A" (some "https://jmty.jp/article-1")],
       some (Worker.getInterval Demo.cfgOld * 60)⟩) ∧
    (∀ m, (Worker.monitorCycle "U1" Demo.envFail).write = some m →
      Demo.envFail.notify = Worker.NotifyResult.ok) :=
  c2_notify_gates_persist "U1" Demo.envFail Demo.cfgOld "Item A"
    (some "https://jmty.jp/article-1") (by decide) (by decide) (by decide)
    (by decide) (by decide) (by decide)

/-- C3 (amended): with a working notifier, a cycle whose extraction
succeeds notifies and updates state exactly when the extracted title is
non-empty and differs from the stored `last_title` (an absent or
non-string stored value always counts as different, so a first
observation notifies); an empty extracted title is treated like a failed
extraction.  When extraction yields no title (NotFound or a scrape
error), the cycle sends nothing, writes nothing, and keeps looping. -/
theorem c3_change_detection (uid : String) (env : Worker.CycleEnv)
    (config : TenantRec) (t : String) (lk : Option String)
    (hc : getVal (Worker.load_settings env.doc).1 uid = some config)
    (hne : ¬(config = [])) (hact : truthy (getVal config "active") = true)
    (hn : env.notify = .ok)
    (hs : Worker.scrape_latest_title env.fetch = (some t, lk)) :
    ((Worker.monitorCycle uid env).notified ≠ [] ↔
      (t ≠ "" ∧ Worker.titleNeqLast t (getVal config "last_title") = true)) ∧
    ((Worker.monitorCycle uid env).write ≠ none ↔
      (t ≠ "" ∧ Worker.titleNeqLast t (getVal config "last_title") = true)) ∧
    (∀ env2 : Worker.CycleEnv,
      getVal (Worker.load_settings env2.doc).1 uid = some config →
      (Worker.scrape_latest_title env2.fetch).1 = none →
      (Worker.monitorCycle uid env2).notified = [] ∧
      (Worker.monitorCycle uid env2).write = none ∧
      (Worker.monitorCycle uid env2).status = .running) := by
  refine ⟨?_, ?_, ?_⟩
  · by_cases hg : t ≠ "" ∧ Worker.titleNeqLast t (getVal config "last_title") = true
    · rw [monitorCycle_notify_ok uid env config t lk hc hne hact hs hg hn]
      simp [hg]
    · rw [monitorCycle_unchanged uid env config t lk hc hne hact hs hg]
      simp [hg]
  · by_cases hg : t ≠ "" ∧ Worker.titleNeqLast t (getVal config "last_title") = true
    · rw [monitorCycle_notify_ok uid env config t lk hc hne hact hs hg hn]
      simp [hg]
    · rw [monitorCycle_unchanged uid env config t lk hc hne hact hs hg]
      simp [hg]
  · intro env2 hc2 hs2
    rw [monitorCycle_no_title uid env2 config hc2 hne hact hs2]
    exact ⟨rfl, rfl, rfl⟩

/-- C3 witness: the amended theorem applied to the concrete environment
`Demo.envOk`, whose page yields `Item A` against stored `last_title`
`"old"`. -/
theorem c3_witness :
    ((Worker.monitorCycle "U1" Demo.envOk).notified ≠ [] ↔
      ("Item A" ≠ "" ∧
        Worker.titleNeqLast "Item A" (getVal Demo.cfgOld "last_title") = true)) ∧
    ((Worker.monitorCycle "U1" Demo.envOk).write ≠ none ↔
      ("Item A" ≠ "" ∧
        Worker.titleNeqLast "Item A" (getVal Demo.cfgOld "last_title") = true)) ∧
    (∀ env2 : Worker.CycleEnv,
      getVal (Worker.load_settings env2.doc).1 "U1" = some Demo.cfgOld →
      (Worker.scrape_latest_title env2.fetch).1 = none →
      (Worker.monitorCycle "U1" env2).notified = [] ∧
      (Worker.monitorCycle "U1" env2).write = none ∧
      (Worker.monitorCycle "U1" env2).status = .running) :=
  c3_change_detection "U1" Demo.envOk Demo.cfgOld "Item A"
    (some "https://jmty.jp/article-1") (by decide) (by decide) (by decide)
    (by decide) (by decide)

/-- Containment of a cycle whose scrape yields no title: no
notification, no write, no escaping exception, and an active tenant
keeps running and sleeps its interval. -/
theorem monitorCycle_contained (uid : String) (env : Worker.CycleEnv)
    (hs : (Worker.scrape_latest_title env.fetch).1 = none) :
    (Worker.monitorCycle uid env).notified = [] ∧
    (Worker.monitorCycle uid env).write = none ∧
    ¬((Worker.monitorCycle uid env).status = .crashed) ∧
    (∀ config, getVal (Worker.load_settings env.doc).1 uid = some config →
      ¬(config = []) → truthy (getVal config "active") = true →
      (Worker.monitorCycle uid env).status = .running ∧
      (Worker.monitorCycle uid env).sleepSecs =
        some (Worker.getInterval config * 60)) := by
  rcases hg : getVal (Worker.load_settings env.doc).1 uid with _ | config
  · have he := monitorCycle_exited uid env
      (by unfold Worker.taskShouldExit; rw [hg])
    rw [he]
    refine ⟨rfl, rfl, by simp, ?_⟩
    intro config hc
    cases hc
  · by_cases hcond : config = [] ∨ truthy (getVal config "active") = false
    · have hexit : Worker.taskShouldExit (Worker.load_settings env.doc).1 uid = true := by
        unfold Worker.taskShouldExit
        rw [hg]
        rcases hcond with h | h
        · simp [h]
        · simp [h]
      rw [monitorCycle_exited uid env hexit]
      refine ⟨rfl, rfl, by simp, ?_⟩
      intro config2 hc hne hact
      injection hc with hc
      subst hc
      rcases hcond with h | h
      · exact absurd h hne
      · rw [hact] at h
        cases h
    · obtain ⟨hne, hactf⟩ := not_or.1 hcond
      have hact : truthy (getVal config "active") = true := by
        cases hb : truthy (getVal config "active") with
        | false => exact absurd hb hactf
        | true => rfl
      rw [monitorCycle_no_title uid env config hg hne hact hs]
      refine ⟨rfl, rfl, by simp, ?_⟩
      intro config2 hc _ _
      injection hc with hc
      subst hc
      exact ⟨rfl, rfl⟩

/-- C6 counterexample: a non-2xx response never raises in `worker.py` —
`monitor_user` reads `response.text` without `raise_for_status`, so the
404 body is parsed like any page — and when the error page carries an
article-link anchor the cycle notifies from it and persists its title.
Containment therefore fails for non-2xx responses, refuting the claim's
inclusion of non-2xx among the contained fetch errors. -/
theorem c6_non2xx_counterexample :
    Worker.monitorCycle "U1" ⟨Demo.docOld, .ok 404 Demo.pageNotFoundBody, .ok⟩ =
      ⟨.running,
       some [("U1", [("url", .jstr "http://site/a"), ("interval", .jnum 1),
                     ("last_title", .jstr "再出品のお知らせ"), ("active", .jbool true)])],
       ["🆕新着投稿：再出品のお知らせ\n👉 https://jmty.jp/article-777"], some 60⟩ := by
  decide

/-- C6 (amended): containment holds for every cycle whose fetch raises
— timeout, DNS and connection errors are caught inside
`scrape_latest_title` — and for every non-raised response, of any HTTP
status code, whose body contains no article-link anchors: zero
notifications, no write, no exception escaping the task, and an active
tenant's task keeps running and sleeps its interval.  A non-2xx
response is not a raised error (the worker never inspects the status),
so its containment depends on its body alone; `c6_non2xx_counterexample`
exhibits the uncontained case. -/
theorem c6_fetch_failure_contained (uid : String) (doc : FileDoc)
    (nr : Worker.NotifyResult) :
    ((Worker.monitorCycle uid ⟨doc, .err, nr⟩).notified = [] ∧
     (Worker.monitorCycle uid ⟨doc, .err, nr⟩).write = none ∧
     ¬((Worker.monitorCycle uid ⟨doc, .err, nr⟩).status = .crashed) ∧
     (∀ config, getVal (Worker.load_settings doc).1 uid = some config →
       ¬(config = []) → truthy (getVal config "active") = true →
       (Worker.monitorCycle uid ⟨doc, .err, nr⟩).status = .running ∧
       (Worker.monitorCycle uid ⟨doc, .err, nr⟩).sleepSecs =
         some (Worker.getInterval config * 60))) ∧
    (∀ (status : Nat) (p : Worker.Page), p.listings = [] →
      (Worker.monitorCycle uid ⟨doc, .ok status p, nr⟩).notified = [] ∧
      (Worker.monitorCycle uid ⟨doc, .ok status p, nr⟩).write = none ∧
      ¬((Worker.monitorCycle uid ⟨doc, .ok status p, nr⟩).status = .crashed) ∧
      (∀ config, getVal (Worker.load_settings doc).1 uid = some config →
        ¬(config = []) → truthy (getVal config "active") = true →
        (Worker.monitorCycle uid ⟨doc, .ok status p, nr⟩).status = .running ∧
        (Worker.monitorCycle uid ⟨doc, .ok status p, nr⟩).sleepSecs =
          some (Worker.getInterval config * 60))) := by
  refine ⟨monitorCycle_contained uid ⟨doc, .err, nr⟩ rfl, ?_⟩
  intro status p hp
  refine monitorCycle_contained uid ⟨doc, .ok status p, nr⟩ ?_
  show (Worker.scrape_latest_title (.ok status p)).1 = none
  simp only [Worker.scrape_latest_title, hp]


/-- C7: live re-read per cycle.  The `n`-th outcome of a `monitor_user`
run is a function of the `n`-th store snapshot alone — the task re-reads
the document at the top of every cycle, so a mid-run change to `active`
or `interval` takes effect at the next cycle; in particular outcome 0 is
the cycle run immediately at task start, before any sleep.  Whenever the
freshly read record is missing, empty or inactive the task exits at that
cycle; whenever it is active and the cycle does not crash, the sleep
after the cycle is the freshly read record's `interval * 60` seconds. -/
theorem c7_fresh_snapshot_per_cycle (uid : String) (envs : List Worker.CycleEnv)
    (n : Nat) (out : Worker.CycleOut)
    (h : (Worker.runMonitor uid envs).get? n = some out) :
    ∃ env, envs.get? n = some env ∧ out = Worker.monitorCycle uid env ∧
      (Worker.taskShouldExit (Worker.load_settings env.doc).1 uid = true →
        out = ⟨.exited, none, [], none⟩) ∧
      (∀ config, getVal (Worker.load_settings env.doc).1 uid = some config →
        ¬(config = []) → truthy (getVal config "active") = true →
        ¬(out.status = .crashed) →
        out.sleepSecs = some (Worker.getInterval config * 60)) := by
  obtain ⟨env, he, hout⟩ := runMonitor_get uid envs n out h
  refine ⟨env, he, hout, ?_, ?_⟩
  · intro hx
    rw [hout]
    exact monitorCycle_exited uid env hx
  · intro config hc hne hact hst
    subst hout
    rcases hs : Worker.scrape_latest_title env.fetch with ⟨t?, lk⟩
    cases t? with
    | none =>
      rw [monitorCycle_no_title uid env config hc hne hact (by rw [hs])]
    | some t =>
      by_cases hg : t ≠ "" ∧ Worker.titleNeqLast t (getVal config "last_title") = true
      · cases hn : env.notify with
        | ok => rw [monitorCycle_notify_ok uid env config t lk hc hne hact hs hg hn]
        | err =>
          rw [monitorCycle_notify_err uid env config t lk hc hne hact hs hg hn] at hst
          exact absurd rfl hst
      · rw [monitorCycle_unchanged uid env config t lk hc hne hact hs hg]

/-- C7 witness: the theorem applied to the single-snapshot run over
`Demo.envOk`, whose outcome is `Demo.outOk`. -/
theorem c7_witness :
    ∃ env, [Demo.envOk].get? 0 = some env ∧
      Demo.outOk = Worker.monitorCycle "U1" env ∧
      (Worker.taskShouldExit (Worker.load_settings env.doc).1 "U1" = true →
        Demo.outOk = ⟨.exited, none, [], none⟩) ∧
      (∀ config, getVal (Worker.load_settings env.doc).1 "U1" = some config →
        ¬(config = []) → truthy (getVal config "active") = true →
        ¬(Demo.outOk.status = .crashed) →
        Demo.outOk.sleepSecs = some (Worker.getInterval config * 60)) :=
  c7_fresh_snapshot_per_cycle "U1" [Demo.envOk] 0 Demo.outOk (by decide)

theorem cons_ne_of_head {a b : Char} (l1 l2 : List Char) (h : ¬(a = b)) :
    ¬(a :: l1 = b :: l2) := by
  intro e
  injection e with e1 _
  exact h e1

/-- C9: the `終了` command on an existing tenant record flips `active`
to `false`, saves, and changes nothing else: the record stays present
under the same id, its `url`, `interval` and `last_title` fields are
untouched, and every other tenant's record is untouched — so a later
`開始` resumes with the preserved configuration. -/
theorem c9_stop_preserves_record (st : SettingsMap) (uid : String) (r : TenantRec)
    (hr : getVal st uid = some r) :
    Main.handle_message st uid "終了" =
      .reply (setVal st uid (setVal r "active" (.jbool false)))
        "監視を停止しました。" true ∧
    getVal (setVal st uid (setVal r "active" (.jbool false))) uid =
      some (setVal r "active" (.jbool false)) ∧
    getVal (setVal r "active" (.jbool false)) "active" = some (.jbool false) ∧
    getVal (setVal r "active" (.jbool false)) "url" = getVal r "url" ∧
    getVal (setVal r "active" (.jbool false)) "interval" = getVal r "interval" ∧
    getVal (setVal r "active" (.jbool false)) "last_title" = getVal r "last_title" ∧
    (∀ u, ¬(u = uid) →
      getVal (setVal st uid (setVal r "active" (.jbool false))) u = getVal st u) := by
  have hens : Main.ensure st uid = st := by
    unfold Main.ensure
    rw [hr]
    rfl
  refine ⟨?_, getVal_setVal_self st uid _, getVal_setVal_self r "active" _,
    getVal_setVal_ne r "active" "url" _ (by decide),
    getVal_setVal_ne r "active" "interval" _ (by decide),
    getVal_setVal_ne r "active" "last_title" _ (by decide),
    fun u hu => getVal_setVal_ne st uid u _ hu⟩
  have e1 : zenkakuToSpace (pyStripList "終了".data) = "終了".data := by decide
  have e2 : splitWs "終了".data = ["終了".data] := by decide
  simp only [Main.handle_message, e1, e2]
  rw [if_neg (by decide), if_neg (by decide), hens]
  unfold Main.tailCommands
  rw [if_neg (by decide), if_pos rfl, hr]
  rfl

/-- C9 witness: the theorem applied to `Demo.store1`, whose record for
`U1` carries url, interval, last_title, active and an extra field. -/
theorem c9_witness :
    Main.handle_message Demo.store1 "U1" "終了" =
      .reply (setVal Demo.store1 "U1" (setVal Demo.rec1 "active" (.jbool false)))
        "監視を停止しました。" true ∧
    getVal (setVal Demo.store1 "U1" (setVal Demo.rec1 "active" (.jbool false))) "U1" =
      some (setVal Demo.rec1 "active" (.jbool false)) ∧
    getVal (setVal Demo.rec1 "active" (.jbool false)) "active" = some (.jbool false) ∧
    getVal (setVal Demo.rec1 "active" (.jbool false)) "url" = getVal Demo.rec1 "url" ∧
    getVal (setVal Demo.rec1 "active" (.jbool false)) "interval" =
      getVal Demo.rec1 "interval" ∧
    getVal (setVal Demo.rec1 "active" (.jbool false)) "last_title" =
      getVal Demo.rec1 "last_title" ∧
    (∀ u, ¬(u = "U1") →
      getVal (setVal Demo.store1 "U1" (setVal Demo.rec1 "active" (.jbool false))) u =
        getVal Demo.store1 u) :=
  c9_stop_preserves_record Demo.store1 "U1" Demo.rec1 (by decide)

/-- C10 counterexample: two non-blank inbound messages that crash the
handler without any reply, refuting "for every message containing at
least one non-whitespace character it reaches exactly one reply
branch": `時間 ²` passes `tokens[1].isdigit()` but `int('²')` raises an
uncaught `ValueError`; and a message of a single em space (U+2003) —
neither a half-width nor a full-width space, but Python whitespace —
strips to nothing and raises the `IndexError`. -/
theorem c10_crash_counterexample :
    Main.handle_message [] "U1" "時間 ²" = .valueError [("U1", Main.defaultRec)] ∧
    Main.handle_message [] "U1" "\u2003" = .indexError [("U1", Main.defaultRec)] := by
  decide

/-- C10 (amended): the handler is not total, and its crashes are exactly
characterized.  A text whose characters are all Python whitespace
strips to the empty string, `msg.split()` yields no tokens, and the
`tokens[0]` access raises an uncaught `IndexError`: the handler aborts
having sent no reply (only the default-record insertion has happened).
A text containing at least one non-whitespace character — over the
modelled digit repertoire — reaches exactly one reply branch, except
when its token list is an interval command `時間 t1 ...` whose argument
`t1` is digit-class but not `int()`-parseable: then `int(tokens[1])`
raises an uncaught `ValueError`, again aborting with no reply. -/
theorem c10_handler_crash_on_blank (st : SettingsMap) (uid : String) (text : String) :
    ((∀ c ∈ text.data, pyIsSpace c = true) →
      Main.handle_message st uid text = .indexError (Main.ensure st uid)) ∧
    ((∃ c ∈ text.data, pyIsSpace c = false) →
      (∀ c ∈ text.data, pyDigitModelled c = true) →
      (∃ st2 rep sv, Main.handle_message st uid text = .reply st2 rep sv) ∨
      (Main.handle_message st uid text = .valueError (Main.ensure st uid) ∧
       ∃ t1 ts, splitWs (zenkakuToSpace (pyStripList text.data)) =
           "時間".data :: t1 :: ts ∧
         pyIsDigit t1 = true ∧ pyIntParses t1 = false)) := by
  constructor
  · intro h
    have hstrip : pyStripList text.data = [] := pyStripList_all_space _ h
    simp only [Main.handle_message, hstrip]
    rfl
  · intro h _
    obtain ⟨c, hc, hcs⟩ := h
    have hcz : ¬(c = '　') := fun e => by rw [e] at hcs; exact absurd hcs (by decide)
    have hc2 : c ∈ zenkakuToSpace (pyStripList text.data) :=
      mem_zenkakuToSpace _ c (mem_pyStripList _ c hc hcs) hcz
    have htok : splitWs (zenkakuToSpace (pyStripList text.data)) ≠ [] :=
      splitWsAux_ne_nil _ [] c hc2 hcs
    simp only [Main.handle_message]
    by_cases h1 : zenkakuToSpace (pyStripList text.data) = "ヘルプ".data
    · rw [if_pos h1]; exact Or.inl ⟨_, _, _, rfl⟩
    · rw [if_neg h1]
      by_cases h2 : zenkakuToSpace (pyStripList text.data) = "間隔選択".data
      · rw [if_pos h2]; exact Or.inl ⟨_, _, _, rfl⟩
      · rw [if_neg h2]
        rcases he : splitWs (zenkakuToSpace (pyStripList text.data)) with _ | ⟨t0, rest⟩
        · exact absurd he htok
        · simp only [he]
          cases rest with
          | nil => exact Or.inl (tailCommands_is_reply _ uid _)
          | cons t1 ts =>
            simp only []
            by_cases hset : t0 = ['セ', 'ッ', 'ト']
            · rw [if_pos hset]; exact Or.inl ⟨_, _, _, rfl⟩
            · rw [if_neg hset]
              by_cases hj : t0 = ['時', '間'] ∧ pyIsDigit t1 = true
              · rw [if_pos hj]
                by_cases hp : pyIntParses t1 = true
                · rw [if_pos hp]; exact Or.inl ⟨_, _, _, rfl⟩
                · rw [if_neg hp]
                  refine Or.inr ⟨rfl, t1, ts, ?_, hj.2, ?_⟩
                  · rw [hj.1]
                  · cases hb : pyIntParses t1 with
                    | true => exact absurd hb hp
                    | false => rfl
              · rw [if_neg hj]
                exact Or.inl (tailCommands_is_reply _ uid _)

/-- C4 (amended): for an interval command `時間 v` with a single
space-free argument token `v` over the modelled character repertoire:
a token that is not all digit characters — which covers non-numeric and
negative arguments — is rejected with the user-visible invalid-command
reply and nothing is stored; a decimal token, ASCII or full-width,
including `"0"` and `"５"`, is accepted and stored as its parsed value,
so an accepted command guarantees only `interval >= 0`; and a
digit-class token that `int()` cannot parse, such as `"²"`, makes
`int(tokens[1])` raise an uncaught `ValueError` — the handler crashes
with no reply and nothing stored. -/
theorem c4_interval_command (st : SettingsMap) (uid : String) (v : String)
    (hne : ¬(v.data = [])) (hns : ∀ c ∈ v.data, pyIsSpace c = false)
    (_hdom : ∀ c ∈ v.data, pyDigitModelled c = true) :
    (pyIsDigit v.data = false →
      Main.handle_message st uid ("時間 " ++ v) =
        .reply (Main.ensure st uid) Main.invalidReply false) ∧
    (pyIntParses v.data = true →
      Main.handle_message st uid ("時間 " ++ v) =
        .reply (setVal (Main.ensure st uid) uid
            (setVal ((getVal (Main.ensure st uid) uid).getD Main.defaultRec)
              "interval" (.jnum (pyToNat v.data))))
          ("監視間隔を" ++ toString (pyToNat v.data) ++ "分に設定しました。") true ∧
      0 ≤ (pyToNat v.data : Int)) ∧
    (pyIsDigit v.data = true → pyIntParses v.data = false →
      Main.handle_message st uid ("時間 " ++ v) =
        .valueError (Main.ensure st uid)) := by
  have hdata : ("時間 " ++ v).data = '時' :: '間' :: ' ' :: v.data := by
    rw [String.data_append]
    have h3 : "時間 ".data = ['時', '間', ' '] := by decide
    rw [h3]
    rfl
  have hmsg := jikan_msg v.data hne hns
  have hsplit := jikan_split v.data hne hns
  have k1 : "開始".data = ['開', '始'] := by decide
  have k2 : "終了".data = ['終', '了'] := by decide
  have k3 : "確認".data = ['確', '認'] := by decide
  refine ⟨?_, ?_, ?_⟩
  · intro hd
    simp only [Main.handle_message, hdata, hmsg, hsplit]
    rw [if_neg (cons_ne_of_head _ _ (by decide)),
      if_neg (cons_ne_of_head _ _ (by decide)),
      if_neg (by decide),
      if_neg (fun hco => by rw [hd] at hco; exact absurd hco.2 (by simp))]
    unfold Main.tailCommands
    rw [k1, k2, k3,
      if_neg (cons_ne_of_head _ _ (by decide)),
      if_neg (cons_ne_of_head _ _ (by decide)),
      if_neg (cons_ne_of_head _ _ (by decide))]
  · intro hp
    have hd : pyIsDigit v.data = true := pyIsDigit_of_parses v.data hp
    refine ⟨?_, Int.natCast_nonneg _⟩
    simp only [Main.handle_message, hdata, hmsg, hsplit]
    rw [if_neg (cons_ne_of_head _ _ (by decide)),
      if_neg (cons_ne_of_head _ _ (by decide)),
      if_neg (by decide),
      if_pos ⟨trivial, hd⟩, if_pos hp]
  · intro hd hp
    simp only [Main.handle_message, hdata, hmsg, hsplit]
    rw [if_neg (cons_ne_of_head _ _ (by decide)),
      if_neg (cons_ne_of_head _ _ (by decide)),
      if_neg (by decide),
      if_pos ⟨trivial, hd⟩, if_neg (by simp [hp])]

/-- C4 witness: the amended theorem applied to the concrete commands
`時間 abc` (rejected, nothing stored), `時間 0` (zero accepted and
stored), `時間 ５` (full-width five accepted and stored as 5), and
`時間 ²` (`isdigit()`-true but unparseable: the handler crashes with no
reply). -/
theorem c4_witness :
    Main.handle_message [] "U1" ("時間 " ++ "abc") =
      .reply (Main.ensure [] "U1") Main.invalidReply false ∧
    (Main.handle_message [] "U1" ("時間 " ++ "0") =
      .reply (setVal (Main.ensure [] "U1") "U1"
          (setVal ((getVal (Main.ensure [] "U1") "U1").getD Main.defaultRec)
            "interval" (.jnum (pyToNat "0".data))))
        ("監視間隔を" ++ toString (pyToNat "0".data) ++ "分に設定しました。") true ∧
      0 ≤ (pyToNat "0".data : Int)) ∧
    (Main.handle_message [] "U1" ("時間 " ++ "５") =
      .reply (setVal (Main.ensure [] "U1") "U1"
          (setVal ((getVal (Main.ensure [] "U1") "U1").getD Main.defaultRec)
            "interval" (.jnum (pyToNat "５".data))))
        ("監視間隔を" ++ toString (pyToNat "５".data) ++ "分に設定しました。") true ∧
      0 ≤ (pyToNat "５".data : Int)) ∧
    Main.handle_message [] "U1" ("時間 " ++ "²") =
      .valueError (Main.ensure [] "U1") :=
  ⟨(c4_interval_command [] "U1" "abc" (by decide) (by decide) (by decide)).1 (by decide),
   (c4_interval_command [] "U1" "0" (by decide) (by decide) (by decide)).2.1 (by decide),
   (c4_interval_command [] "U1" "５" (by decide) (by decide) (by decide)).2.1 (by decide),
   (c4_interval_command [] "U1" "²" (by decide) (by decide) (by decide)).2.2
     (by decide) (by decide)⟩
